import Mathlib

/-!
Verification of the scoring / aggregation / effect-size pipeline of the
`rce-llm-empirical-validation` repository.

The Python sources embedded here are:
  * `scripts/run_benchmarks.py` — `validate_response`, the tolerance
    resolution in `benchmark_query`, and `compute_accuracy`;
  * `scripts/statistical_analysis.py` — `compute_overall_accuracy`,
    `compute_task_family_accuracy`, `cohens_h`, `_interpret_cohens_h`,
    `compute_effect_sizes`, and the H₃ consistency check of
    `validate_hypotheses`.

Modelling conventions: Python strings are Lean `String` (ASCII case
folding and ASCII whitespace, which covers the benchmark data); Python
floats in the scoring arithmetic are modelled as exact rationals `ℚ`;
the transcendental effect-size arithmetic is modelled over `ℝ`; a Python
function that can raise an uncaught exception is modelled in the
`Except String` monad, the error string being the Python error message.
-/

/-! ### Python string primitives -/

/-- Python `str.strip` whitespace class (ASCII part). -/
def pyIsSpace (c : Char) : Bool :=
  c = ' ' ∨ c = '\t' ∨ c = '\n' ∨ c = '\r' ∨ c = '\x0b' ∨ c = '\x0c'

/-- Python `str.strip()`: drop leading and trailing whitespace. -/
def pyStrip (s : String) : String :=
  ⟨((s.toList.dropWhile pyIsSpace).reverse.dropWhile pyIsSpace).reverse⟩

/-- Python `str.lower()` (ASCII case folding). -/
def pyLower (s : String) : String :=
  ⟨s.toList.map Char.toLower⟩

/-- The normalisation `str(x).lower().strip()` applied by `validate_response`
(`run_benchmarks.py:197-198`). -/
def pyNorm (s : String) : String :=
  pyStrip (pyLower s)

/-- `headMatch pat l` is true when `pat` occurs at the very start of `l`. -/
def headMatch : List Char → List Char → Bool
  | [], _ => true
  | _ :: _, [] => false
  | p :: ps, h :: hs => p = h && headMatch ps hs

/-- `occursIn pat l` is true when `pat` occurs contiguously somewhere in `l`. -/
def occursIn (pat : List Char) : List Char → Bool
  | [] => pat.isEmpty
  | c :: rest => headMatch pat (c :: rest) || occursIn pat rest

/-- Python substring containment `pat in hay` on strings. -/
def strContains (hay pat : String) : Bool :=
  occursIn pat.toList hay.toList

/-! ### The number-token scanner of `validate_response`

`run_benchmarks.py:208-209` extracts number tokens with
`re.findall(r'-?\d+\.?\d*', s)` and keeps the first one.  The scanner
below reproduces the leftmost, greedy match of that pattern. -/

/-- Greedy match of `\d+\.?\d*` at the head of the character list. -/
def matchNumCore (l : List Char) : Option (List Char) :=
  let ds := l.takeWhile Char.isDigit
  if ds.isEmpty then none
  else
    match l.dropWhile Char.isDigit with
    | '.' :: r2 => some (ds ++ '.' :: r2.takeWhile Char.isDigit)
    | _ => some ds

/-- Greedy match of `-?\d+\.?\d*` at the head of the character list. -/
def matchNumAt (l : List Char) : Option (List Char) :=
  match l with
  | '-' :: rest =>
    match matchNumCore rest with
    | some m => some ('-' :: m)
    | none => none
  | _ => matchNumCore l

/-- Leftmost match of `-?\d+\.?\d*`, i.e. `re.findall(...)[0]` when the
pattern occurs at all. -/
def findFirstNum : List Char → Option (List Char)
  | [] => none
  | c :: rest =>
    match matchNumAt (c :: rest) with
    | some m => some m
    | none => findFirstNum rest

/-- Value of a digit string. -/
def digitsToNat (l : List Char) : Nat :=
  l.foldl (fun a c => a * 10 + (c.toNat - '0'.toNat)) 0

/-- Python `float` on an unsigned token `\d+\.?\d*` (exact rational value). -/
def parseNumPos (l : List Char) : ℚ :=
  let ds := l.takeWhile Char.isDigit
  match l.dropWhile Char.isDigit with
  | '.' :: fs => (digitsToNat ds : ℚ) + (digitsToNat fs : ℚ) / ((10 : ℚ) ^ fs.length)
  | _ => (digitsToNat ds : ℚ)

/-- Python `float` on a matched token `-?\d+\.?\d*`. -/
def parseNum (l : List Char) : ℚ :=
  match l with
  | '-' :: rest => - parseNumPos rest
  | _ => parseNumPos l

/-- First number token of a string, as the rational value Python's `float`
assigns to it (`float(re.findall(r'-?\d+\.?\d*', s)[0])`). -/
def firstNum (s : String) : Option ℚ :=
  (findFirstNum s.toList).map parseNum

/-! ### `validate_response` (`run_benchmarks.py:188-221`) -/

/-- The `try` block of `validate_response` once both number tokens exist
(`run_benchmarks.py:212-219`): `abs(response_val - expected_val) /
expected_val <= tolerance` — the denominator is the *signed* expected value,
exactly as in the source.  A `ZeroDivisionError` (expected value zero) is
caught by the surrounding `except` and falls through to `return False`. -/
def numericCheck (response_val expected_val tolerance : ℚ) : Bool :=
  if expected_val = 0 then false
  else if |response_val - expected_val| / expected_val ≤ tolerance then true
  else false

/-- `BenchmarkRunner.validate_response`.  `response` is `Option` because the
callers pass `result.get("response")`, which is `None` on failure; Python's
`if not response` also rejects the empty string.  The substring branch is
tried first; the numeric branch extracts the first number token of each
normalised string and runs `numericCheck`. -/
def validate_response (response : Option String) (expected_answer : String)
    (tolerance : ℚ) : Bool :=
  match response with
  | none => false
  | some r =>
    if r = "" then false
    else if strContains (pyNorm r) (pyNorm expected_answer) = true then true
    else
      match firstNum (pyNorm r), firstNum (pyNorm expected_answer) with
      | some response_val, some expected_val =>
        numericCheck response_val expected_val tolerance
      | _, _ => false

/-! Evaluation lemmas for the three control paths of `validate_response`. -/

lemma validate_response_substr {r e : String} (tol : ℚ) (hne : ¬ r = "")
    (hsub : strContains (pyNorm r) (pyNorm e) = true) :
    validate_response (some r) e tol = true := by
  simp only [validate_response, if_neg hne, hsub, if_true]

lemma validate_response_numeric {r e : String} (tol : ℚ) {v w : ℚ}
    (hne : ¬ r = "") (hsub : strContains (pyNorm r) (pyNorm e) = false)
    (hr : firstNum (pyNorm r) = some v) (he : firstNum (pyNorm e) = some w) :
    validate_response (some r) e tol = numericCheck v w tol := by
  simp only [validate_response, if_neg hne, hsub, Bool.false_eq_true, if_false, hr, he]

lemma numericCheck_true_iff {rv ev tol : ℚ} (h : ev ≠ 0) :
    numericCheck rv ev tol = true ↔ |rv - ev| / ev ≤ tol := by
  simp only [numericCheck, if_neg h]
  by_cases hle : |rv - ev| / ev ≤ tol <;> simp [hle]

lemma numericCheck_of_zero (rv tol : ℚ) : numericCheck rv 0 tol = false := by
  simp [numericCheck]

lemma firstNum_eq {s : String} {m : List Char}
    (h : findFirstNum s.toList = some m) : firstNum s = some (parseNum m) := by
  rw [firstNum, h]; rfl

/-! ### Tolerance resolution (`run_benchmarks.py:229-232`) -/

/-- The `tolerance` field of a query item: a relative numeric fraction or the
flag `"exact"` (the two shapes the fixture data model provides). -/
inductive TolSpec where
  | exact : TolSpec
  | num : ℚ → TolSpec

/-- `benchmark_query`'s tolerance resolution: `query.get("tolerance", 0.05)`
followed by `tolerance = 0.05 if tolerance == "exact" else float(tolerance)`
for string values.  Note that the flag `"exact"` resolves to the default
`0.05`, not to an exact-match mode. -/
def resolve_tolerance : Option TolSpec → ℚ
  | none => 1/20
  | some TolSpec.exact => 1/20
  | some (TolSpec.num q) => q

/-- Correctness flag `benchmark_query` stores for one system response
(`run_benchmarks.py:248-268`): `validate_response` at the resolved
tolerance. -/
def benchmark_correct (response : Option String) (expected_answer : String)
    (tol : Option TolSpec) : Bool :=
  validate_response response expected_answer (resolve_tolerance tol)

/-! ### Result data model and accuracy aggregation

`benchmark_query` appends exactly one result dict per system, in the fixed
order LLM, LLM+RAG, RCE-LLM (`run_benchmarks.py:246-268`); the spec's data
model makes "exactly one SystemResponse per system enumeration value, in a
fixed order" an invariant of `QueryResult`. -/

/-- The fixed enumeration of the three benchmarked systems. -/
inductive SysName where
  | LLM : SysName
  | RAG : SysName
  | RCE : SysName
deriving DecidableEq

/-- One per-system entry of a query result; only the fields the accuracy
computations read (`system_result["system"]`, `system_result.get("correct",
False)`). -/
structure SystemResult where
  system : SysName
  correct : Bool
deriving DecidableEq

/-- One entry of a family's `queries` list; only the `systems` field is read
by the aggregation code. -/
structure QueryResult where
  systems : List SystemResult
deriving DecidableEq

/-- The `QueryResult` invariant of the data model: exactly one response per
system enumeration value, in the fixed order produced by `benchmark_query`. -/
def wfQuery (qr : QueryResult) : Prop :=
  ∃ a b c : Bool,
    qr.systems = [⟨SysName.LLM, a⟩, ⟨SysName.RAG, b⟩, ⟨SysName.RCE, c⟩]

/-- Number of responses of system `s` marked correct across `queries` — the
final value of `system_correct[s]` in `BenchmarkRunner.compute_accuracy`
(`run_benchmarks.py:308-315`). -/
def countCorrect (s : SysName) (queries : List QueryResult) : Nat :=
  (queries.map fun qr => qr.systems.countP fun r => decide (r.system = s) && r.correct).sum

/-- `BenchmarkRunner.compute_accuracy` (`run_benchmarks.py:306-320`):
`(correct / total) if total > 0 else 0.0` with `total = len(queries)`. -/
def compute_accuracy (queries : List QueryResult) (s : SysName) : ℚ :=
  if 0 < queries.length then (countCorrect s queries : ℚ) / (queries.length : ℚ)
  else 0

/-- Final value of `system_correct[s]` in
`StatisticalAnalyzer.compute_task_family_accuracy`
(`statistical_analysis.py:85-92`) for one family. -/
def familyCorrect (s : SysName) (queries : List QueryResult) : Nat :=
  (queries.map fun qr => qr.systems.countP fun r => decide (r.system = s) && r.correct).sum

/-- `StatisticalAnalyzer.compute_task_family_accuracy`
(`statistical_analysis.py:78-104`), accuracy value for one family and one
system: `correct / total if total > 0 else 0.0` with
`total = len(queries)`. -/
def compute_task_family_accuracy (queries : List QueryResult) (s : SysName) : ℚ :=
  if 0 < queries.length then (familyCorrect s queries : ℚ) / (queries.length : ℚ)
  else 0

/-- Final value of `system_correct[s]` in
`StatisticalAnalyzer.compute_overall_accuracy` (`statistical_analysis.py:58-67`):
the correct responses of system `s` over all families and queries. -/
def overallCorrect (s : SysName) (fams : List (List QueryResult)) : Nat :=
  (fams.map fun queries =>
    (queries.map fun qr => qr.systems.countP fun r => decide (r.system = s) && r.correct).sum).sum

/-- Final value of `system_total[s]` in `compute_overall_accuracy`: it is
incremented once per response dict of system `s`, over all families and
queries. -/
def overallTotal (s : SysName) (fams : List (List QueryResult)) : Nat :=
  (fams.map fun queries =>
    (queries.map fun qr => qr.systems.countP fun r => decide (r.system = s)).sum).sum

/-- `StatisticalAnalyzer.compute_overall_accuracy`
(`statistical_analysis.py:54-76`), accuracy value for one system:
`correct / total if total > 0 else 0.0`. -/
def compute_overall_accuracy (fams : List (List QueryResult)) (s : SysName) : ℚ :=
  if 0 < overallTotal s fams then (overallCorrect s fams : ℚ) / (overallTotal s fams : ℚ)
  else 0

/-! ### Hypothesis H₃ (`statistical_analysis.py:181-197`) -/

/-- One row of `self.analysis["task_family_accuracy"]`: the three systems'
accuracy values for one task family. -/
structure FamilyAccEntry where
  llm : ℚ
  rag : ℚ
  rce : ℚ

/-- The H₃ "consistent improvement" computation of `validate_hypotheses`:
for each family append `rce > llm and rce > rag` to `improvements`, then
`h3_valid = all(improvements)`. -/
def h3_consistent (tfa : List (String × FamilyAccEntry)) : Bool :=
  (tfa.map fun e => decide (e.2.llm < e.2.rce) && decide (e.2.rag < e.2.rce)).all
    fun b => b

/-! ### Effect sizes (`statistical_analysis.py:106-153`)

`math.sqrt` and `math.asin` raise `ValueError("math domain error")` outside
their domains; `cohens_h` and `compute_effect_sizes` contain no `try` or
precondition check, so such an error propagates out of both.  They are
modelled in the `Except String` monad. -/

open Classical in
/-- `math.sqrt`: domain error for negative arguments. -/
noncomputable def pySqrt (x : ℝ) : Except String ℝ :=
  if x < 0 then Except.error "math domain error" else Except.ok (Real.sqrt x)

open Classical in
/-- `math.asin`: domain error outside `[-1, 1]`. -/
noncomputable def pyAsin (x : ℝ) : Except String ℝ :=
  if 1 < |x| then Except.error "math domain error" else Except.ok (Real.arcsin x)

/-- The local function `cohens_h` of `compute_effect_sizes`
(`statistical_analysis.py:116-120`): `phi1 = 2 * asin(sqrt(p1));
phi2 = 2 * asin(sqrt(p2)); return phi1 - phi2`, with the Python exceptions
of `sqrt`/`asin` propagating. -/
noncomputable def cohens_h (p1 p2 : ℝ) : Except String ℝ := do
  let s1 ← pySqrt p1
  let a1 ← pyAsin s1
  let s2 ← pySqrt p2
  let a2 ← pyAsin s2
  return 2 * a1 - 2 * a2

/-- The value `cohens_h` returns on in-range arguments. -/
noncomputable def cohensHVal (p1 p2 : ℝ) : ℝ :=
  2 * Real.arcsin (Real.sqrt p1) - 2 * Real.arcsin (Real.sqrt p2)

open Classical in
/-- `StatisticalAnalyzer._interpret_cohens_h` (`statistical_analysis.py:143-153`). -/
noncomputable def interpret_cohens_h (h : ℝ) : String :=
  if |h| < 1/5 then "negligible"
  else if |h| < 1/2 then "small"
  else if |h| < 4/5 then "medium"
  else "large"

/-- `StatisticalAnalyzer.compute_effect_sizes` (`statistical_analysis.py:106-141`),
applied to the three overall accuracies: the two Cohen's h values with their
interpretations.  No exception handler is present, so an error raised by
`cohens_h` propagates out of the whole analysis step. -/
noncomputable def compute_effect_sizes (rce llm rag : ℝ) :
    Except String ((ℝ × String) × (ℝ × String)) := do
  let h1 ← cohens_h rce llm
  let h2 ← cohens_h rce rag
  return ((h1, interpret_cohens_h h1), (h2, interpret_cohens_h h2))

/-- Shared evaluation lemma: on in-range arguments `cohens_h` returns the
arcsine-difference value. -/
lemma cohens_h_ok {p q : ℝ} (hp0 : 0 ≤ p) (hp1 : p ≤ 1) (hq0 : 0 ≤ q) (hq1 : q ≤ 1) :
    cohens_h p q = Except.ok (cohensHVal p q) := by
  have hsp : pySqrt p = Except.ok (Real.sqrt p) := by
    rw [pySqrt, if_neg (not_lt.mpr hp0)]
  have hsq : pySqrt q = Except.ok (Real.sqrt q) := by
    rw [pySqrt, if_neg (not_lt.mpr hq0)]
  have hap : pyAsin (Real.sqrt p) = Except.ok (Real.arcsin (Real.sqrt p)) := by
    rw [pyAsin, if_neg]
    rw [not_lt, abs_of_nonneg (Real.sqrt_nonneg p)]
    exact Real.sqrt_le_one.mpr hp1
  have haq : pyAsin (Real.sqrt q) = Except.ok (Real.arcsin (Real.sqrt q)) := by
    rw [pyAsin, if_neg]
    rw [not_lt, abs_of_nonneg (Real.sqrt_nonneg q)]
    exact Real.sqrt_le_one.mpr hq1
  rw [cohens_h, hsp]
  show (pyAsin (Real.sqrt p)).bind _ = _
  rw [hap]
  show (pySqrt q).bind _ = _
  rw [hsq]
  show (pyAsin (Real.sqrt q)).bind _ = _
  rw [haq]
  rfl

/-- Shared evaluation lemma: any argument outside `[0,1]` makes `cohens_h`
raise the `ValueError` of `math.sqrt` / `math.asin`. -/
lemma cohens_h_err {p q : ℝ} (h : p < 0 ∨ 1 < p ∨ q < 0 ∨ 1 < q) :
    cohens_h p q = Except.error "math domain error" := by
  by_cases hp0 : p < 0
  · rw [cohens_h, pySqrt, if_pos hp0]; rfl
  · rw [not_lt] at hp0
    have hsp : pySqrt p = Except.ok (Real.sqrt p) := by
      rw [pySqrt, if_neg (not_lt.mpr hp0)]
    by_cases hp1 : 1 < p
    · have hap : pyAsin (Real.sqrt p) = Except.error "math domain error" := by
        rw [pyAsin, if_pos]
        rw [abs_of_nonneg (Real.sqrt_nonneg p)]
        exact (Real.lt_sqrt zero_le_one).mpr (by rw [one_pow]; exact hp1)
      rw [cohens_h, hsp]
      show (pyAsin (Real.sqrt p)).bind _ = _
      rw [hap]; rfl
    · rw [not_lt] at hp1
      have hap : pyAsin (Real.sqrt p) = Except.ok (Real.arcsin (Real.sqrt p)) := by
        rw [pyAsin, if_neg]
        rw [not_lt, abs_of_nonneg (Real.sqrt_nonneg p)]
        exact Real.sqrt_le_one.mpr hp1
      have hq : q < 0 ∨ 1 < q := by
        rcases h with h | h | h | h
        · exact absurd h (not_lt.mpr hp0)
        · exact absurd h (not_lt.mpr hp1)
        · exact Or.inl h
        · exact Or.inr h
      rw [cohens_h, hsp]
      show (pyAsin (Real.sqrt p)).bind _ = _
      rw [hap]
      show (pySqrt q).bind _ = _
      rcases hq with hq | hq
      · rw [pySqrt, if_pos hq]; rfl
      · have hq0 : (0:ℝ) ≤ q := le_trans zero_le_one (le_of_lt hq)
        rw [pySqrt, if_neg (not_lt.mpr hq0)]
        show (pyAsin (Real.sqrt q)).bind _ = _
        have haq : pyAsin (Real.sqrt q) = Except.error "math domain error" := by
          rw [pyAsin, if_pos]
          rw [abs_of_nonneg (Real.sqrt_nonneg q)]
          exact (Real.lt_sqrt zero_le_one).mpr (by rw [one_pow]; exact hq)
        rw [haq]; rfl

/-! ### Numeric bounds for the worked effect size

The demo accuracies are LLM `0.600` and RCE-LLM `0.933`
(`create_demo_results.py:89-104`); the bounds below locate
`cohens_h(0.933, 0.600)` between `0.8` and `0.9`. -/

lemma sqrt35_le : Real.sqrt (3/5) ≤ 3873/5000 := by
  have h : Real.sqrt (3/5) ≤ Real.sqrt (((3873:ℝ)/5000) ^ 2) :=
    Real.sqrt_le_sqrt (by norm_num)
  rwa [Real.sqrt_sq (by norm_num : (0:ℝ) ≤ 3873/5000)] at h

lemma le_sqrt35 : (7745:ℝ)/10000 ≤ Real.sqrt (3/5) :=
  (Real.le_sqrt (by norm_num) (by norm_num)).mpr (by norm_num)

lemma sqrt25_le : Real.sqrt (2/5) ≤ 79057/125000 := by
  have h : Real.sqrt (2/5) ≤ Real.sqrt (((79057:ℝ)/125000) ^ 2) :=
    Real.sqrt_le_sqrt (by norm_num)
  rwa [Real.sqrt_sq (by norm_num : (0:ℝ) ≤ 79057/125000)] at h

lemma le_sqrt25 : (6324:ℝ)/10000 ≤ Real.sqrt (2/5) :=
  (Real.le_sqrt (by norm_num) (by norm_num)).mpr (by norm_num)

lemma sqrt0933_le : Real.sqrt (933/1000) ≤ 96592/100000 := by
  have h : Real.sqrt (933/1000) ≤ Real.sqrt (((96592:ℝ)/100000) ^ 2) :=
    Real.sqrt_le_sqrt (by norm_num)
  rwa [Real.sqrt_sq (by norm_num : (0:ℝ) ≤ 96592/100000)] at h

lemma le_sqrt0933 : (96591:ℝ)/100000 ≤ Real.sqrt (933/1000) :=
  (Real.le_sqrt (by norm_num) (by norm_num)).mpr (by norm_num)

lemma cos_two_fifths_bounds :
    (689:ℝ)/750 ≤ Real.cos (2/5) ∧ Real.cos (2/5) ≤ 691/750 := by
  have h := Real.cos_bound (x := 2/5)
    (by rw [abs_of_nonneg (by norm_num : (0:ℝ) ≤ 2/5)]; norm_num)
  rw [abs_of_nonneg (by norm_num : (0:ℝ) ≤ 2/5)] at h
  rw [abs_le] at h
  constructor <;> nlinarith [h.1, h.2]

lemma sin_two_fifths_bounds :
    (291:ℝ)/750 ≤ Real.sin (2/5) ∧ Real.sin (2/5) ≤ 293/750 := by
  have h := Real.sin_bound (x := 2/5)
    (by rw [abs_of_nonneg (by norm_num : (0:ℝ) ≤ 2/5)]; norm_num)
  rw [abs_of_nonneg (by norm_num : (0:ℝ) ≤ 2/5)] at h
  rw [abs_le] at h
  constructor <;> nlinarith [h.1, h.2]

lemma cos_nine_twentieths_ge : (918133:ℝ)/1024000 ≤ Real.cos (9/20) := by
  have h := Real.cos_bound (x := 9/20)
    (by rw [abs_of_nonneg (by norm_num : (0:ℝ) ≤ 9/20)]; norm_num)
  rw [abs_of_nonneg (by norm_num : (0:ℝ) ≤ 9/20)] at h
  rw [abs_le] at h
  nlinarith [h.1, h.2]

lemma sin_nine_twentieths_ge : (1329183:ℝ)/3072000 ≤ Real.sin (9/20) := by
  have h := Real.sin_bound (x := 9/20)
    (by rw [abs_of_nonneg (by norm_num : (0:ℝ) ≤ 9/20)]; norm_num)
  rw [abs_of_nonneg (by norm_num : (0:ℝ) ≤ 9/20)] at h
  rw [abs_le] at h
  nlinarith [h.1, h.2]

lemma sin_one_ge : (75:ℝ)/96 ≤ Real.sin 1 := by
  have h := Real.sin_bound (x := 1) (by norm_num)
  rw [abs_one] at h
  rw [abs_le] at h
  nlinarith [h.1, h.2]

lemma arcsin_sqrt35_nonneg : 0 ≤ Real.arcsin (Real.sqrt (3/5)) :=
  Real.arcsin_nonneg.mpr (Real.sqrt_nonneg _)

lemma arcsin_sqrt35_lt_one : Real.arcsin (Real.sqrt (3/5)) < 1 := by
  have h1 : Real.sqrt (3/5) < Real.sin 1 :=
    lt_of_le_of_lt sqrt35_le (lt_of_lt_of_le (by norm_num) sin_one_ge)
  have hmem1 : Real.sqrt (3/5) ∈ Set.Icc (-1:ℝ) 1 :=
    ⟨le_trans (by norm_num) (Real.sqrt_nonneg _), Real.sqrt_le_one.mpr (by norm_num)⟩
  have hmem2 : Real.sin 1 ∈ Set.Icc (-1:ℝ) 1 := ⟨Real.neg_one_le_sin 1, Real.sin_le_one 1⟩
  have h2 := Real.strictMonoOn_arcsin hmem1 hmem2 h1
  have hpi := Real.pi_gt_three
  rwa [Real.arcsin_sin (by linarith) (by linarith)] at h2

lemma sin_arcsin_sqrt35 : Real.sin (Real.arcsin (Real.sqrt (3/5))) = Real.sqrt (3/5) :=
  Real.sin_arcsin (le_trans (by norm_num) (Real.sqrt_nonneg _))
    (Real.sqrt_le_one.mpr (by norm_num))

lemma cos_arcsin_sqrt35 : Real.cos (Real.arcsin (Real.sqrt (3/5))) = Real.sqrt (2/5) := by
  rw [Real.cos_arcsin]
  congr 1
  rw [Real.sq_sqrt (by norm_num : (0:ℝ) ≤ 3/5)]
  norm_num

lemma sin_arcsin_sqrt0933 :
    Real.sin (Real.arcsin (Real.sqrt (933/1000))) = Real.sqrt (933/1000) :=
  Real.sin_arcsin (le_trans (by norm_num) (Real.sqrt_nonneg _))
    (Real.sqrt_le_one.mpr (by norm_num))

lemma gap_lower :
    Real.arcsin (Real.sqrt (3/5)) + 2/5 < Real.arcsin (Real.sqrt (933/1000)) := by
  have hθ0 := arcsin_sqrt35_nonneg
  have hθ1 := arcsin_sqrt35_lt_one
  have hpi := Real.pi_gt_three
  have hkey : Real.sin (Real.arcsin (Real.sqrt (3/5)) + 2/5) < Real.sqrt (933/1000) := by
    rw [Real.sin_add, sin_arcsin_sqrt35, cos_arcsin_sqrt35]
    have p1 : Real.sqrt (3/5) * Real.cos (2/5) ≤ (3873/5000 : ℝ) * (691/750) :=
      mul_le_mul sqrt35_le cos_two_fifths_bounds.2
        (le_trans (by norm_num) cos_two_fifths_bounds.1) (by norm_num)
    have p2 : Real.sqrt (2/5) * Real.sin (2/5) ≤ (79057/125000 : ℝ) * (293/750) :=
      mul_le_mul sqrt25_le sin_two_fifths_bounds.2
        (le_trans (by norm_num) sin_two_fifths_bounds.1) (by norm_num)
    have h5 := le_sqrt0933
    nlinarith [p1, p2]
  have hmem1 : Real.arcsin (Real.sqrt (3/5)) + 2/5 ∈ Set.Icc (-(Real.pi/2)) (Real.pi/2) :=
    ⟨by linarith, by linarith⟩
  have hmem2 := Real.arcsin_mem_Icc (Real.sqrt (933/1000))
  have := (Real.strictMonoOn_sin.lt_iff_lt hmem1 hmem2).mp
    (by rw [sin_arcsin_sqrt0933]; exact hkey)
  exact this

lemma gap_upper :
    Real.arcsin (Real.sqrt (933/1000)) < Real.arcsin (Real.sqrt (3/5)) + 9/20 := by
  have hθ0 := arcsin_sqrt35_nonneg
  have hθ1 := arcsin_sqrt35_lt_one
  have hpi := Real.pi_gt_three
  have hkey : Real.sqrt (933/1000) < Real.sin (Real.arcsin (Real.sqrt (3/5)) + 9/20) := by
    rw [Real.sin_add, sin_arcsin_sqrt35, cos_arcsin_sqrt35]
    have p1 : (7745/10000 : ℝ) * (918133/1024000) ≤ Real.sqrt (3/5) * Real.cos (9/20) :=
      mul_le_mul le_sqrt35 cos_nine_twentieths_ge (by norm_num) (Real.sqrt_nonneg _)
    have p2 : (6324/10000 : ℝ) * (1329183/3072000) ≤ Real.sqrt (2/5) * Real.sin (9/20) :=
      mul_le_mul le_sqrt25 sin_nine_twentieths_ge (by norm_num) (Real.sqrt_nonneg _)
    have h5 := sqrt0933_le
    nlinarith [p1, p2]
  have hmem1 : Real.arcsin (Real.sqrt (3/5)) + 9/20 ∈ Set.Icc (-(Real.pi/2)) (Real.pi/2) :=
    ⟨by linarith, by linarith⟩
  have hmem2 := Real.arcsin_mem_Icc (Real.sqrt (933/1000))
  exact (Real.strictMonoOn_sin.lt_iff_lt hmem2 hmem1).mp
    (by rw [sin_arcsin_sqrt0933]; exact hkey)

lemma cohensHVal_demo_bounds :
    4/5 < cohensHVal (933/1000) (3/5) ∧ cohensHVal (933/1000) (3/5) < 9/10 := by
  have h1 := gap_lower
  have h2 := gap_upper
  rw [cohensHVal]
  constructor <;> linarith

lemma interpret_of_large {h : ℝ} (hh : 4/5 ≤ |h|) : interpret_cohens_h h = "large" := by
  have h1 : ¬ |h| < 1/5 := not_lt.mpr (le_trans (by norm_num) hh)
  have h2 : ¬ |h| < 1/2 := not_lt.mpr (le_trans (by norm_num) hh)
  have h3 : ¬ |h| < 4/5 := not_lt.mpr hh
  simp only [interpret_cohens_h, if_neg h1, if_neg h2, if_neg h3]

/-! ## Claim theorems -/

/-- C1 counterexample: a query flagged `"exact"` with expected answer `"42"`
and response `"41"` is counted correct (via the numeric path at the resolved
default tolerance `0.05`), although the response does not match the expected
answer exactly as a string.  This refutes the claim that the exact flag
degenerates to exact string matching. -/
theorem C1_counterexample :
    benchmark_correct (some "41") "42" (some TolSpec.exact) = true ∧ "41" ≠ "42" := by
  constructor
  · show validate_response (some "41") "42" (1/20) = true
    rw [validate_response_numeric (v := 41) (w := 42) _ (by decide) (by decide)
      (by rw [show pyNorm "41" = "41" from by decide]
          exact firstNum_eq (m := ['4','1']) (by decide))
      (by rw [show pyNorm "42" = "42" from by decide]
          exact firstNum_eq (m := ['4','2']) (by decide))]
    rw [numericCheck_true_iff (by norm_num)]
    norm_num
  · decide

/-- C1 (amended): for items explicitly flagged `"exact"`, `benchmark_query`
resolves the tolerance to the default `0.05` and the correctness check is the
ordinary `validate_response` at that tolerance — the numeric-tolerance path
stays enabled and matching is not exact-string-only. -/
theorem C1_exact_resolves_to_default :
    resolve_tolerance (some TolSpec.exact) = 1/20 ∧
    ∀ (r : Option String) (e : String),
      benchmark_correct r e (some TolSpec.exact) = validate_response r e (1/20) :=
  ⟨rfl, fun _ _ => rfl⟩

/-- C3 counterexample.  First conjunct: for response `"about 9.81 m/s^2"`,
expected `"9.8"` and tolerance `0.001` the code returns correct — the
substring check succeeds (`"9.8"` occurs in `"9.81"`), so the claimed
"incorrect at tolerance 0.001" is false.  Second and third conjuncts: for
response `"100"` and expected `"-5"` the substring check fails, both strings
carry number tokens, the code marks the response correct, yet
`|100 - (-5)| / |-5| = 21` is far above the tolerance `0.05` — the claimed
absolute-denominator criterion is not what the code computes. -/
theorem C3_counterexample :
    validate_response (some "about 9.81 m/s^2") "9.8" (1/1000) = true ∧
    validate_response (some "100") "-5" (1/20) = true ∧
    ¬ (|(100:ℚ) - (-5)| / |(-5:ℚ)| ≤ 1/20) := by
  refine ⟨?_, ?_, by norm_num⟩
  · exact validate_response_substr _ (by decide) (by decide)
  · rw [validate_response_numeric (v := 100) (w := -5) _ (by decide) (by decide)
      (by rw [show pyNorm "100" = "100" from by decide]
          exact firstNum_eq (m := ['1','0','0']) (by decide))
      (by rw [show pyNorm "-5" = "-5" from by decide]
          exact firstNum_eq (m := ['-','5']) (by decide))]
    rw [numericCheck_true_iff (by norm_num)]
    norm_num

/-- C3 (amended): when the substring check fails, both normalised strings
contain a number token, and the expected value is nonzero, the response is
marked correct exactly when `|response_val - expected_val| / expected_val ≤
tolerance`, with the *signed* expected value as denominator (for a negative
expected value every numeric response passes).  The spec's `9.8`-vs-`9.81`
example never reaches this path: it is decided by the substring check. -/
theorem C3_tolerance_check (r e : String) (tol rv ev : ℚ)
    (hsub : strContains (pyNorm r) (pyNorm e) = false)
    (hr : firstNum (pyNorm r) = some rv)
    (he : firstNum (pyNorm e) = some ev)
    (hev : ev ≠ 0) :
    (validate_response (some r) e tol = true ↔ |rv - ev| / ev ≤ tol) := by
  by_cases hne : r = ""
  · subst hne
    rw [show pyNorm "" = "" from rfl] at hr
    rw [show firstNum "" = none from rfl] at hr
    exact absurd hr (by simp)
  · rw [validate_response_numeric tol hne hsub hr he]
    exact numericCheck_true_iff hev

/-- C3 witness: concrete instance of `C3_tolerance_check` — response
`"roughly 25"` against expected `"24"` is correct at tolerance `0.05`
because `|25 - 24| / 24 ≤ 0.05`. -/
theorem C3_witness :
    validate_response (some "roughly 25") "24" (1/20) = true :=
  (C3_tolerance_check "roughly 25" "24" (1/20) 25 24 (by decide)
    (by rw [show pyNorm "roughly 25" = "roughly 25" from by decide]
        exact firstNum_eq (m := ['2','5']) (by decide))
    (by rw [show pyNorm "24" = "24" from by decide]
        exact firstNum_eq (m := ['2','4']) (by decide))
    (by norm_num)).mpr (by norm_num)

/-- C5: when the substring check fails and the expected string's first number
token has value zero, `validate_response` returns `False`: the
`ZeroDivisionError` of the relative-difference expression is caught by the
`except` clause and the function falls through to `return False` — it is
never propagated. -/
theorem C5_zero_expected (r e : String) (tol : ℚ)
    (hsub : strContains (pyNorm r) (pyNorm e) = false)
    (he : firstNum (pyNorm e) = some 0) :
    validate_response (some r) e tol = false := by
  by_cases hne : r = ""
  · subst hne; rfl
  · cases hr : firstNum (pyNorm r) with
    | none =>
      simp only [validate_response, if_neg hne, hsub, Bool.false_eq_true, if_false, hr, he]
    | some rv =>
      rw [validate_response_numeric tol hne hsub hr he]
      exact numericCheck_of_zero rv tol

/-- C5 witness: response `"5 apples"` against expected `"0 items"` (expected
value `0`) is marked not correct, with no fault. -/
theorem C5_witness : validate_response (some "5 apples") "0 items" (1/20) = false :=
  C5_zero_expected "5 apples" "0 items" (1/20) (by decide)
    (by rw [show pyNorm "0 items" = "0 items" from by decide]
        exact firstNum_eq (m := ['0']) (by decide))

/-- C9 counterexample: for the empty response and empty expected answer the
normalised expected string is a substring of the normalised response, yet
`validate_response` returns `False` — Python's `if not response` guard
rejects empty responses before the substring check, so the claim fails for
the empty response string. -/
theorem C9_counterexample :
    strContains (pyNorm "") (pyNorm "") = true ∧
    validate_response (some "") "" (1/20) = false := by
  exact ⟨by decide, by decide⟩

/-- C9 (amended): for every *non-empty* response, if the normalised expected
string occurs as a substring of the normalised response then the response is
marked correct, for every tolerance, before any numeric comparison. -/
theorem C9_substring_first (r e : String) (tol : ℚ) (hne : ¬ r = "")
    (hsub : strContains (pyNorm r) (pyNorm e) = true) :
    validate_response (some r) e tol = true :=
  validate_response_substr tol hne hsub

/-- C9 witness: the spec's own example — `"The capital of France is Paris."`
against expected `"Paris"` is marked correct (at an arbitrarily small
tolerance, showing the substring branch ignores the tolerance). -/
theorem C9_witness :
    validate_response (some "The capital of France is Paris.") "Paris" (1/1000000) = true :=
  C9_substring_first "The capital of France is Paris." "Paris" (1/1000000)
    (by decide) (by decide)

/-- C2 counterexample: at accuracies `(2, 0.5)` the first argument is outside
`[0,1]`; `cohens_h` raises `ValueError("math domain error")` and — since
neither `cohens_h` nor `compute_effect_sizes` contains any handler or
precondition check — the error propagates uncaught out of
`compute_effect_sizes`.  This refutes "a defined rejection, never an uncaught
fault". -/
theorem C2_counterexample :
    cohens_h 2 (1/2) = Except.error "math domain error" ∧
    compute_effect_sizes 2 (1/2) (1/2) = Except.error "math domain error" := by
  have h := cohens_h_err (p := 2) (q := 1/2) (Or.inr (Or.inl (by norm_num)))
  refine ⟨h, ?_⟩
  rw [compute_effect_sizes, h]
  rfl

/-- C2 (amended): `cohens_h` performs no precondition check.  For arguments
inside `[0,1]` it returns `2*asin(sqrt(pA)) - 2*asin(sqrt(pB))`; any argument
outside `[0,1]` makes `math.sqrt` or `math.asin` raise
`ValueError("math domain error")`, which propagates uncaught rather than
being reported as a precondition violation. -/
theorem C2_cohens_h_domain :
    (∀ p q : ℝ, 0 ≤ p → p ≤ 1 → 0 ≤ q → q ≤ 1 →
        cohens_h p q = Except.ok (cohensHVal p q)) ∧
    (∀ p q : ℝ, p < 0 ∨ 1 < p ∨ q < 0 ∨ 1 < q →
        cohens_h p q = Except.error "math domain error") :=
  ⟨fun _ _ hp0 hp1 hq0 hq1 => cohens_h_ok hp0 hp1 hq0 hq1,
    fun _ _ h => cohens_h_err h⟩

/-- C2 witness: both halves of `C2_cohens_h_domain` at concrete accuracies. -/
theorem C2_witness :
    cohens_h (1/4) (1/4) = Except.ok (cohensHVal (1/4) (1/4)) ∧
    cohens_h (-1) (1/2) = Except.error "math domain error" :=
  ⟨C2_cohens_h_domain.1 (1/4) (1/4) (by norm_num) (by norm_num) (by norm_num) (by norm_num),
    C2_cohens_h_domain.2 (-1) (1/2) (Or.inl (by norm_num))⟩

/-- C4 counterexample: at the worked accuracies `0.933` and `0.600` the
formula `2*asin(sqrt(0.933)) - 2*asin(sqrt(0.600))` does *not* evaluate to
`≈ 0.789` — it exceeds `0.8`, so it is not within `0.01` of `0.789`.
Moreover, the hardcoded demo pair `(0.789, "large")` of
`create_demo_results.py:134-137` is internally inconsistent with the code's
own bucketing: `_interpret_cohens_h(0.789) = "medium"`. -/
theorem C4_counterexample :
    ¬ |cohensHVal (933/1000) (3/5) - 789/1000| < 1/100 ∧
    interpret_cohens_h (789/1000) = "medium" := by
  constructor
  · have hb := cohensHVal_demo_bounds
    rw [not_lt, abs_of_pos (by linarith [hb.1] :
      (0:ℝ) < cohensHVal (933/1000) (3/5) - 789/1000)]
    linarith [hb.1]
  · have h1 : ¬ |(789:ℝ)/1000| < 1/5 := by
      rw [abs_of_pos (by norm_num : (0:ℝ) < 789/1000)]; norm_num
    have h2 : ¬ |(789:ℝ)/1000| < 1/2 := by
      rw [abs_of_pos (by norm_num : (0:ℝ) < 789/1000)]; norm_num
    have h3 : |(789:ℝ)/1000| < 4/5 := by
      rw [abs_of_pos (by norm_num : (0:ℝ) < 789/1000)]; norm_num
    simp only [interpret_cohens_h, if_neg h1, if_neg h2, if_pos h3]

/-- C4 (amended): at overall accuracies `0.933` (RCE-LLM) and `0.600` (LLM)
the computed effect size is `2*asin(sqrt(0.933)) - 2*asin(sqrt(0.600))`,
which lies strictly between `0.8` and `0.9` (numerically `≈ 0.846`, not
`≈ 0.789`), and is bucketed as `"large"` by `_interpret_cohens_h`. -/
theorem C4_effect_size_demo :
    cohens_h (933/1000) (3/5) = Except.ok (cohensHVal (933/1000) (3/5)) ∧
    4/5 < cohensHVal (933/1000) (3/5) ∧ cohensHVal (933/1000) (3/5) < 9/10 ∧
    interpret_cohens_h (cohensHVal (933/1000) (3/5)) = "large" := by
  have hb := cohensHVal_demo_bounds
  refine ⟨cohens_h_ok (by norm_num) (by norm_num) (by norm_num) (by norm_num),
    hb.1, hb.2, ?_⟩
  exact interpret_of_large
    (by rw [abs_of_pos (lt_trans (by norm_num) hb.1)]; linarith [hb.1])

/-- C8: on accuracies in `[0,1]`, `cohens_h` returns the arcsine-difference
value, that value is antisymmetric (`cohens_h(p,q) = -cohens_h(q,p)`), and
`cohens_h(p,p) = 0`. -/
theorem C8_antisymmetry (p q : ℝ) (hp0 : 0 ≤ p) (hp1 : p ≤ 1)
    (hq0 : 0 ≤ q) (hq1 : q ≤ 1) :
    cohens_h p q = Except.ok (cohensHVal p q) ∧
    cohensHVal p q = -(cohensHVal q p) ∧
    cohens_h p p = Except.ok 0 := by
  refine ⟨cohens_h_ok hp0 hp1 hq0 hq1, by rw [cohensHVal, cohensHVal]; ring, ?_⟩
  rw [cohens_h_ok hp0 hp1 hp0 hp1, cohensHVal, sub_self]

/-- C8 witness: `C8_antisymmetry` at accuracies `0.9` and `0.1`. -/
theorem C8_witness :
    cohens_h (9/10) (1/10) = Except.ok (cohensHVal (9/10) (1/10)) ∧
    cohensHVal (9/10) (1/10) = -(cohensHVal (1/10) (9/10)) ∧
    cohens_h (9/10) (9/10) = Except.ok 0 :=
  C8_antisymmetry (9/10) (1/10) (by norm_num) (by norm_num) (by norm_num) (by norm_num)

/-- Under the data-model invariant, a query contributes at most one correct
response of system `s`. -/
lemma countP_le_one_of_wf (s : SysName) {qr : QueryResult} (h : wfQuery qr) :
    (qr.systems.countP fun r => decide (r.system = s) && r.correct) ≤ 1 := by
  obtain ⟨a, b, c, hsys⟩ := h
  rw [hsys]
  cases s <;> cases a <;> cases b <;> cases c <;> decide

lemma countCorrect_le_length (s : SysName) (queries : List QueryResult)
    (hwf : ∀ qr ∈ queries, wfQuery qr) :
    countCorrect s queries ≤ queries.length := by
  induction queries with
  | nil => simp [countCorrect]
  | cons q rest ih =>
    have h1 := countP_le_one_of_wf s (hwf q (List.mem_cons_self q rest))
    have h2 := ih (fun qr hqr => hwf qr (List.mem_cons_of_mem _ hqr))
    simp only [countCorrect, List.map_cons, List.sum_cons, List.length_cons] at *
    omega

lemma countP_imp_le {α : Type} (p q : α → Bool) (l : List α)
    (h : ∀ x, p x = true → q x = true) : l.countP p ≤ l.countP q := by
  induction l with
  | nil => simp
  | cons a t ih =>
    rw [List.countP_cons, List.countP_cons]
    by_cases hp : p a = true
    · rw [hp, h a hp]
      omega
    · have : (if p a = true then 1 else 0) = 0 := by simp [hp]
      rw [this]
      have : (0:Nat) ≤ if q a = true then 1 else 0 := by positivity
      omega

lemma overallCorrect_le_total (s : SysName) (fams : List (List QueryResult)) :
    overallCorrect s fams ≤ overallTotal s fams := by
  rw [overallCorrect, overallTotal]
  apply List.sum_le_sum
  intro queries _
  apply List.sum_le_sum
  intro qr _
  apply countP_imp_le
  intro r hr
  exact (Bool.and_eq_true _ _).mp hr |>.1

/-- C7: both accuracy computations return `correct / total` guarded by
`total > 0`, the result is always in `[0,1]` (for the per-family count under
the one-response-per-system invariant), it is `0.0` whenever the total is
`0`, and no division is performed in that case. -/
theorem C7_accuracy_bounds (queries : List QueryResult)
    (fams : List (List QueryResult)) (s : SysName)
    (hwf : ∀ qr ∈ queries, wfQuery qr) :
    (0 ≤ compute_accuracy queries s ∧ compute_accuracy queries s ≤ 1 ∧
      (queries.length = 0 → compute_accuracy queries s = 0) ∧
      (0 < queries.length → compute_accuracy queries s =
        (countCorrect s queries : ℚ) / (queries.length : ℚ))) ∧
    (0 ≤ compute_overall_accuracy fams s ∧ compute_overall_accuracy fams s ≤ 1 ∧
      (overallTotal s fams = 0 → compute_overall_accuracy fams s = 0) ∧
      (0 < overallTotal s fams → compute_overall_accuracy fams s =
        (overallCorrect s fams : ℚ) / (overallTotal s fams : ℚ))) := by
  constructor
  · by_cases hlen : 0 < queries.length
    · have hlen' : (0:ℚ) < (queries.length : ℚ) := by exact_mod_cast hlen
      have hbc : (countCorrect s queries : ℚ) ≤ (queries.length : ℚ) := by
        exact_mod_cast countCorrect_le_length s queries hwf
      simp only [compute_accuracy, if_pos hlen]
      refine ⟨div_nonneg (Nat.cast_nonneg _) (le_of_lt hlen'), ?_, ?_, fun _ => trivial⟩
      · exact (div_le_one hlen').mpr hbc
      · intro h0; omega
    · simp only [compute_accuracy, if_neg hlen]
      exact ⟨le_refl 0, by norm_num, fun _ => trivial, fun h => absurd h hlen⟩
  · by_cases htot : 0 < overallTotal s fams
    · have htot' : (0:ℚ) < (overallTotal s fams : ℚ) := by exact_mod_cast htot
      have hoc : (overallCorrect s fams : ℚ) ≤ (overallTotal s fams : ℚ) := by
        exact_mod_cast overallCorrect_le_total s fams
      simp only [compute_overall_accuracy, if_pos htot]
      refine ⟨div_nonneg (Nat.cast_nonneg _) (le_of_lt htot'), ?_, ?_, fun _ => trivial⟩
      · exact (div_le_one htot').mpr hoc
      · intro h0; omega
    · simp only [compute_overall_accuracy, if_neg htot]
      exact ⟨le_refl 0, by norm_num, fun _ => trivial, fun h => absurd h htot⟩

/-- C7 witness: the `[0,1]` bounds at a concrete one-query result set. -/
theorem C7_witness :
    0 ≤ compute_accuracy
        [⟨[⟨SysName.LLM, true⟩, ⟨SysName.RAG, false⟩, ⟨SysName.RCE, true⟩]⟩]
        SysName.RCE ∧
      compute_accuracy
        [⟨[⟨SysName.LLM, true⟩, ⟨SysName.RAG, false⟩, ⟨SysName.RCE, true⟩]⟩]
        SysName.RCE ≤ 1 :=
  ⟨(C7_accuracy_bounds _ [] SysName.RCE (by
      intro qr h; rw [List.mem_singleton] at h; subst h
      exact ⟨true, false, true, rfl⟩)).1.1,
    (C7_accuracy_bounds _ [] SysName.RCE (by
      intro qr h; rw [List.mem_singleton] at h; subst h
      exact ⟨true, false, true, rfl⟩)).1.2.1⟩

/-- C6: the H₃ "consistent improvement" boolean is true exactly when, in
every family of the per-category accuracy table, the RCE-LLM accuracy
strictly exceeds both baselines; equivalently, one failing family makes it
false. -/
theorem C6_h3_iff (tfa : List (String × FamilyAccEntry)) :
    h3_consistent tfa = true ↔
      ∀ e ∈ tfa, e.2.llm < e.2.rce ∧ e.2.rag < e.2.rce := by
  rw [h3_consistent, List.all_eq_true]
  constructor
  · intro h e he
    have := h _ (List.mem_map_of_mem _ he)
    simpa only [Bool.and_eq_true, decide_eq_true_eq] using this
  · intro h b hb
    rw [List.mem_map] at hb
    obtain ⟨e, he, rfl⟩ := hb
    simp only [Bool.and_eq_true, decide_eq_true_eq]
    exact h e he

/-- C6 witness: a one-family table where RCE-LLM strictly beats both
baselines evaluates to true, via `C6_h3_iff`. -/
theorem C6_witness :
    h3_consistent [("f5_factual", ⟨1/3, 2/3, 1⟩)] = true :=
  (C6_h3_iff _).mpr (by
    intro e he
    rw [List.mem_singleton] at he
    subst he
    exact ⟨by norm_num, by norm_num⟩)

/-- C10: for a family's query list (one response per system per query), the
accuracy `BenchmarkRunner.compute_accuracy` stores during the run and the
accuracy `StatisticalAnalyzer.compute_task_family_accuracy` recomputes from
the saved results are the same number, for every system: both count the
correct responses of the system and divide by the same query count, with the
same zero-total guard. -/
theorem C10_refinement (queries : List QueryResult) (s : SysName)
    (_hwf : ∀ qr ∈ queries, wfQuery qr) :
    compute_accuracy queries s = compute_task_family_accuracy queries s := rfl

/-- C10 witness: `C10_refinement` at a concrete one-query family. -/
theorem C10_witness :
    compute_accuracy
        [⟨[⟨SysName.LLM, true⟩, ⟨SysName.RAG, false⟩, ⟨SysName.RCE, true⟩]⟩]
        SysName.LLM =
      compute_task_family_accuracy
        [⟨[⟨SysName.LLM, true⟩, ⟨SysName.RAG, false⟩, ⟨SysName.RCE, true⟩]⟩]
        SysName.LLM :=
  C10_refinement _ SysName.LLM (by
    intro qr h; rw [List.mem_singleton] at h; subst h
    exact ⟨true, false, true, rfl⟩)
